import Mathlib

/-!
# Verification of `chaudit-unattendedupdateschecker` (`src/main.py`)

Shallow embedding of the two checks in `UnattendedUpdatesChecker`:

* `check_unattended_upgrades` (lines 25-69): queries dpkg for the
  `unattended-upgrades` package, then inspects two APT configuration files by
  literal substring search, returning a pair `(enabled, message)`.  All
  catchable exceptions are folded into `(False, "Error: ...")` verdicts by the
  surrounding try/except.
* `audit_config_file` (lines 71-116): dispatches on the file extension of the
  configuration path, parses YAML or JSON, loads a JSON schema, validates with
  `jsonschema.validate`, and returns a boolean, logging diagnostics; every
  catchable exception is folded into `False`.

The outside world (subprocess outcome, file existence, file contents, parser
and validator outcomes) is passed in explicitly; Python exceptions become an
error type threaded through `Except`, and the try/except blocks become total
handler functions, so Lean totality of the embedded functions is exactly the
"never raises" behaviour of the Python code for catchable exceptions.
-/

namespace Chaudit

-- Decidable equality for `Except`, needed to evaluate concrete environments.
deriving instance DecidableEq for Except

/-- The catchable Python exceptions distinguished by the handlers in
`check_unattended_upgrades`: `FileNotFoundError`, `subprocess.CalledProcessError`
and every other `Exception`, each carrying its rendered message text. -/
inductive PyErr where
  | fileNotFound (msg : String)
  | calledProcess (msg : String)
  | other (msg : String)
deriving DecidableEq, Repr

/-- One environment (outside-world snapshot) seen by a single call of
`check_unattended_upgrades`:

* `dpkg`: outcome of `subprocess.run(["dpkg", "-s", "unattended-upgrades"])` —
  the integer `returncode`, or an exception (for example a missing `dpkg`
  binary raises `FileNotFoundError`);
* `exists50` / `read50`: `os.path.exists` outcome and `open`+`read` outcome for
  `/etc/apt/apt.conf.d/50unattended-upgrades`;
* `exists20` / `read20`: the same for `/etc/apt/apt.conf.d/20auto-upgrades`.

The read outcomes are separate from the existence bits because `open` can still
raise after `os.path.exists` returned true (permissions, races). -/
structure Env where
  dpkg : Except PyErr Int
  exists50 : Bool
  read50 : Except PyErr String
  exists20 : Bool
  read20 : Except PyErr String
deriving DecidableEq, Repr

/-- `prefixOf p s` decides whether the character list `p` is an initial
segment of `s`. -/
def prefixOf : List Char → List Char → Bool
  | [], _ => true
  | _ :: _, [] => false
  | a :: as, b :: bs => a == b && prefixOf as bs

/-- `containsSub pat s` decides whether `pat` occurs as a contiguous
subsequence of `s`; it embeds the Python substring test `pat in s`. -/
def containsSub : List Char → List Char → Bool
  | pat, [] => prefixOf pat []
  | pat, c :: rest => prefixOf pat (c :: rest) || containsSub pat rest

/-- Python `pat in s` on strings: containment of `pat` in `s`. -/
def strContains (s pat : String) : Bool :=
  containsSub pat.data s.data

/-- Python `s.endswith(suffx)`. -/
def strEndsWith (s suffx : String) : Bool :=
  prefixOf suffx.data.reverse s.data.reverse

/-- Literal searched for in `50unattended-upgrades` (line 45). -/
def originsKey : String := "Unattended-Upgrade::Allowed-Origins"

/-- First literal directive searched for in `20auto-upgrades` (line 56). -/
def updateListsDirective : String := "APT::Periodic::Update-Package-Lists \"1\";"

/-- Second literal directive searched for in `20auto-upgrades` (line 56). -/
def unattendedDirective : String := "APT::Periodic::Unattended-Upgrade \"1\";"

/-- Path of the upgrade-policy configuration file (line 38). -/
def path50 : String := "/etc/apt/apt.conf.d/50unattended-upgrades"

/-- Path of the periodic-schedule configuration file (line 49). -/
def path20 : String := "/etc/apt/apt.conf.d/20auto-upgrades"

/-- Verdict message of line 35. -/
def msgNotInstalled : String := "Unattended upgrades package is not installed."

/-- Verdict message of line 40 (an f-string naming the path). -/
def msgMissing50 : String := "Configuration file not found: " ++ path50

/-- Verdict message of line 46. -/
def msgOrigins : String := "Unattended-Upgrade::Allowed-Origins not properly configured."

/-- Verdict message of line 51 (an f-string naming the path). -/
def msgMissing20 : String := "Configuration file not found: " ++ path20

/-- Verdict message of line 57. -/
def msgPeriodic : String := "Automatic updates are not enabled in APT::Periodic."

/-- Verdict message of line 59, the unique success verdict. -/
def msgEnabled : String := "Unattended upgrades are enabled and properly configured."

/-- The three `except` clauses of lines 61-69: each exception kind becomes a
`(False, "Error: ...")` verdict whose text embeds the exception's message. -/
def handleErr : PyErr → Bool × String
  | .fileNotFound m => (false, "Error: File not found: " ++ m)
  | .calledProcess m => (false, "Error: Subprocess error: " ++ m)
  | .other m => (false, "Error: An unexpected error occurred: " ++ m)

/-- The `try` block of `check_unattended_upgrades` (lines 31-59): each outside
interaction either yields its value or propagates its exception; the five
checks short-circuit in source order. -/
def checkBody (env : Env) : Except PyErr (Bool × String) :=
  match env.dpkg with
  | .error e => .error e
  | .ok rc =>
    if rc != 0 then .ok (false, msgNotInstalled)
    else if !env.exists50 then .ok (false, msgMissing50)
    else
      match env.read50 with
      | .error e => .error e
      | .ok content =>
        if !strContains content originsKey then .ok (false, msgOrigins)
        else if !env.exists20 then .ok (false, msgMissing20)
        else
          match env.read20 with
          | .error e => .error e
          | .ok autoContent =>
            if !(strContains autoContent updateListsDirective &&
                 strContains autoContent unattendedDirective) then
              .ok (false, msgPeriodic)
            else .ok (true, msgEnabled)

/-- `UnattendedUpdatesChecker.check_unattended_upgrades` (lines 25-69): the
`try` body with every catchable exception folded into a verdict by the
`except` clauses. -/
def check_unattended_upgrades (env : Env) : Bool × String :=
  match checkBody env with
  | .ok r => r
  | .error e => handleErr e

example :
    check_unattended_upgrades
      { dpkg := .ok 0, exists50 := true, read50 := .ok originsKey,
        exists20 := true,
        read20 := .ok (updateListsDirective ++ unattendedDirective) } =
      (true, msgEnabled) := by decide

example :
    check_unattended_upgrades
      { dpkg := .ok 1, exists50 := true, read50 := .ok originsKey,
        exists20 := true, read20 := .ok "" } =
      (false, msgNotInstalled) := by decide

example :
    check_unattended_upgrades
      { dpkg := .error (.fileNotFound "dpkg"), exists50 := true,
        read50 := .ok "", exists20 := true, read20 := .ok "" } =
      (false, "Error: File not found: dpkg") := by decide

/-! ## `audit_config_file` (lines 71-116) -/

/-- The catchable Python exceptions distinguished by the handlers in
`audit_config_file`: `FileNotFoundError`, `yaml.YAMLError`,
`json.JSONDecodeError`, `jsonschema.ValidationError` and every other
`Exception`, each carrying its rendered message text. -/
inductive AuditErr where
  | fileNotFound (msg : String)
  | yamlError (msg : String)
  | jsonDecodeError (msg : String)
  | validationError (msg : String)
  | other (msg : String)
deriving DecidableEq, Repr

/-- A parsed, format-agnostic document tree (the `ConfigDocument` /
`SchemaDocument` of the data model): the values `yaml.safe_load` and
`json.load` can produce. -/
inductive JValue where
  | null
  | bool (b : Bool)
  | num (n : Int)
  | str (s : String)
  | arr (xs : List JValue)
  | obj (kvs : List (String × JValue))

/-- One outside-world snapshot seen by a single call of `audit_config_file`:
the outcome of reading each path, of parsing a string as YAML or JSON, and of
`jsonschema.validate` on a document/schema pair.  Each outcome is a value or a
catchable exception. -/
structure AuditWorld where
  readFile : String → Except AuditErr String
  parseYaml : String → Except AuditErr JValue
  parseJson : String → Except AuditErr JValue
  validateFn : JValue → JValue → Except AuditErr Unit

/-- Log line of line 91, emitted with the `False` return of line 92. -/
def msgUnsupported : String :=
  "Unsupported configuration file type. Only YAML and JSON are supported."

/-- Success log line of line 98 (an f-string naming the configuration path). -/
def msgValidLog (config_file : String) : String :=
  "Configuration file " ++ config_file ++ " is valid against the schema."

/-- Lines 94-99: read the schema file, parse it as JSON, validate the
configuration document against it, and return `True` with the success log. -/
def validateStage (w : AuditWorld) (config_file schema_file : String)
    (config_data : JValue) : Except AuditErr (Bool × List String) :=
  match w.readFile schema_file with
  | .error e => .error e
  | .ok ss =>
    match w.parseJson ss with
    | .error e => .error e
    | .ok schema_data =>
      match w.validateFn config_data schema_data with
      | .error e => .error e
      | .ok _ => .ok (true, [msgValidLog config_file])

/-- The `try` block of `audit_config_file` (lines 82-99): extension dispatch,
configuration parse, then the schema/validate stage. -/
def auditBody (w : AuditWorld) (config_file schema_file : String) :
    Except AuditErr (Bool × List String) :=
  if strEndsWith config_file ".yaml" || strEndsWith config_file ".yml" then
    match w.readFile config_file with
    | .error e => .error e
    | .ok s =>
      match w.parseYaml s with
      | .error e => .error e
      | .ok d => validateStage w config_file schema_file d
  else if strEndsWith config_file ".json" then
    match w.readFile config_file with
    | .error e => .error e
    | .ok s =>
      match w.parseJson s with
      | .error e => .error e
      | .ok d => validateStage w config_file schema_file d
  else .ok (false, [msgUnsupported])

/-- The five `except` clauses of lines 101-116: each exception kind becomes a
`False` verdict with the logged diagnostics of its handler. -/
def auditHandle : AuditErr → Bool × List String
  | .fileNotFound m => (false, ["File not found: " ++ m])
  | .yamlError m => (false, ["YAML parsing error: " ++ m])
  | .jsonDecodeError m => (false, ["JSON parsing error: " ++ m])
  | .validationError m =>
      (false, ["Validation error: " ++ m, "Error message: " ++ m])
  | .other m => (false, ["An unexpected error occurred: " ++ m])

/-- Folds a `try`-body outcome through the `except` clauses. -/
def fromBody : Except AuditErr (Bool × List String) → Bool × List String
  | .ok r => r
  | .error e => auditHandle e

/-- `UnattendedUpdatesChecker.audit_config_file` (lines 71-116): the `try`
body with every catchable exception folded into `False` by the `except`
clauses.  The first component is the returned boolean; the second collects the
logged diagnostic lines. -/
def audit_config_file (w : AuditWorld) (config_file schema_file : String) :
    Bool × List String :=
  fromBody (auditBody w config_file schema_file)

/-! ## A model of `jsonschema.validate`

The `jsonschema` library is an external dependency; its code is not part of
this repository.  The definitions below model the fragment of its behaviour
the specification relies on. -/

/-- Key lookup in a document mapping, first binding wins. -/
def lookupJ : List (String × JValue) → String → Option JValue
  | [], _ => none
  | (k, v) :: rest, key => if k == key then some v else lookupJ rest key

/-- Modelled from the spec: the list of property names a JSON-Schema document
marks required (its `required` keyword, a list of strings). -/
def requiredList (schema : JValue) : List String :=
  match schema with
  | .obj skvs =>
    match lookupJ skvs "required" with
    | some (.arr xs) =>
      xs.filterMap fun v => match v with | .str s => some s | _ => none
    | _ => []
  | _ => []

/-- Modelled from the spec: the human-readable violation text naming one
missing required property. -/
def reqClause (p : String) : String := "required property missing: " ++ p

/-- Joins diagnostic clauses into one message. -/
def joinMsgs : List String → String
  | [] => ""
  | [m] => m
  | m :: rest => m ++ "; " ++ joinMsgs rest

/-- Modelled from the spec: the name JSON Schema gives to the shape of a
document node (its `type` keyword vocabulary). -/
def typeNameJ : JValue → String
  | .null => "null"
  | .bool _ => "boolean"
  | .num _ => "integer"
  | .str _ => "string"
  | .arr _ => "array"
  | .obj _ => "object"

/-- Modelled from the spec: whether a node satisfies a `type` constraint. -/
def typeOk (t : String) (v : JValue) : Bool :=
  if t == "number" then
    match v with | .num _ => true | _ => false
  else typeNameJ v == t

/-- Modelled from the spec: validate each declared property of an object
instance against its subschema, with `rec` validating one node. -/
def jsValidateProps (rec : JValue → JValue → Except AuditErr Unit)
    (inst : JValue) (skvs : List (String × JValue)) :
    Except AuditErr Unit :=
  match lookupJ skvs "properties", inst with
  | some (.obj props), .obj ikvs =>
    props.foldlM
      (fun _ kv =>
        match lookupJ ikvs kv.1 with
        | some v => rec v kv.2
        | none => .ok ()) ()
  | _, _ => .ok ()

/-- Modelled from the spec: fuelled structural JSON-Schema validation —
required properties (reporting every missing one, as the spec allows), type
checks, and nested validation of declared properties. -/
def jsValidateF : Nat → JValue → JValue → Except AuditErr Unit
  | 0, _, _ => .ok ()
  | fuel + 1, inst, schema =>
    match schema with
    | .obj skvs =>
      let missing := (requiredList schema).filter fun p =>
        match inst with
        | .obj kvs => (lookupJ kvs p).isNone
        | _ => false
      if !missing.isEmpty then
        .error (.validationError (joinMsgs (missing.map reqClause)))
      else
        match lookupJ skvs "type" with
        | some (.str t) =>
          if !typeOk t inst then
            .error (.validationError ("instance is not of type " ++ t))
          else jsValidateProps (jsValidateF fuel) inst skvs
        | _ => jsValidateProps (jsValidateF fuel) inst skvs
    | _ => .ok ()

mutual

/-- Node count of a document tree, used as validation fuel. -/
def sizeJ : JValue → Nat
  | .null => 1
  | .bool _ => 1
  | .num _ => 1
  | .str _ => 1
  | .arr xs => 1 + sizeJArr xs
  | .obj kvs => 1 + sizeJObj kvs

/-- Node count of a sequence of document trees. -/
def sizeJArr : List JValue → Nat
  | [] => 0
  | v :: rest => sizeJ v + sizeJArr rest

/-- Node count of a mapping's bindings. -/
def sizeJObj : List (String × JValue) → Nat
  | [] => 0
  | kv :: rest => sizeJ kv.2 + sizeJObj rest

end

/-- Modelled from the spec: `jsonschema.validate(instance, schema)` — raises a
`ValidationError` describing the first violated constraint level, returns
`None` on success.  The fuel exceeds every schema depth, so it never runs out
on the recursion through declared properties. -/
def jsValidate (inst schema : JValue) : Except AuditErr Unit :=
  jsValidateF (sizeJ schema + 1) inst schema

/-! ## String lemmas -/

theorem prefixOf_append_self (p t : List Char) : prefixOf p (p ++ t) = true := by
  induction p with
  | nil => rfl
  | cons a as ih => simp [prefixOf, ih]

theorem containsSub_of_prefixOf {pat s : List Char} (h : prefixOf pat s = true) :
    containsSub pat s = true := by
  cases s with
  | nil => simpa [containsSub] using h
  | cons c rest => simp [containsSub, h]

theorem containsSub_append_left (s : List Char) {t pat : List Char}
    (h : containsSub pat t = true) : containsSub pat (s ++ t) = true := by
  induction s with
  | nil => simpa using h
  | cons c cs ih => simp [containsSub, ih]

theorem containsSub_sandwich (a pat b : List Char) :
    containsSub pat (a ++ (pat ++ b)) = true :=
  containsSub_append_left a (containsSub_of_prefixOf (prefixOf_append_self pat b))

theorem append_ne_empty_of_left {s : String} (h : s.data ≠ []) (t : String) :
    s ++ t ≠ "" := by
  intro he
  apply h
  have hd : s.data ++ t.data = [] := by
    simpa [String.data_append] using congrArg String.data he
  exact (List.append_eq_nil.mp hd).1

/-! ## Claims about `check_unattended_upgrades` -/

/-- Every handler verdict carries `False` and a non-empty message. -/
theorem handleErr_spec (e : PyErr) :
    (handleErr e).1 = false ∧ (handleErr e).2 ≠ "" := by
  cases e <;> exact ⟨rfl, append_ne_empty_of_left (by decide) _⟩

/-- Exhaustive list of the outcomes of the `try` body. -/
theorem checkBody_cases (env : Env) :
    checkBody env = .ok (true, msgEnabled) ∨
    checkBody env = .ok (false, msgNotInstalled) ∨
    checkBody env = .ok (false, msgMissing50) ∨
    checkBody env = .ok (false, msgOrigins) ∨
    checkBody env = .ok (false, msgMissing20) ∨
    checkBody env = .ok (false, msgPeriodic) ∨
    ∃ e, checkBody env = .error e := by
  unfold checkBody
  repeat' split
  all_goals tauto

/-- Exhaustive list of the verdicts `check_unattended_upgrades` can return. -/
theorem check_cases (env : Env) :
    check_unattended_upgrades env = (true, msgEnabled) ∨
    check_unattended_upgrades env = (false, msgNotInstalled) ∨
    check_unattended_upgrades env = (false, msgMissing50) ∨
    check_unattended_upgrades env = (false, msgOrigins) ∨
    check_unattended_upgrades env = (false, msgMissing20) ∨
    check_unattended_upgrades env = (false, msgPeriodic) ∨
    ∃ e, check_unattended_upgrades env = handleErr e := by
  rcases checkBody_cases env with h | h | h | h | h | h | ⟨e, h⟩ <;>
    simp [check_unattended_upgrades, h]

/-- C1: for every environment — any package-query outcome, any file-existence
pattern, any file contents, including ones that make the reads or the
subprocess invocation raise — `check_unattended_upgrades` returns a pair whose
message is non-empty, and the enabled flag is `true` only with the unique
success verdict, so every failure path carries `false`.  Totality of the Lean
function over the whole environment type is the "never raises" half of the
claim. -/
theorem check_never_raises_and_false_on_failure (env : Env) :
    (check_unattended_upgrades env).2 ≠ "" ∧
      ((check_unattended_upgrades env).1 = true →
        check_unattended_upgrades env = (true, msgEnabled)) := by
  rcases check_cases env with h | h | h | h | h | h | ⟨e, h⟩ <;> rw [h]
  · exact ⟨by decide, fun _ => rfl⟩
  · exact ⟨by decide, by simp⟩
  · exact ⟨by decide, by simp⟩
  · exact ⟨by decide, by simp⟩
  · exact ⟨by decide, by simp⟩
  · exact ⟨by decide, by simp⟩
  · refine ⟨(handleErr_spec e).2, fun hc => ?_⟩
    rw [(handleErr_spec e).1] at hc
    cases hc

/-- The canonical all-checks-pass environment. -/
def envGood : Env :=
  { dpkg := .ok 0, exists50 := true, read50 := .ok originsKey,
    exists20 := true,
    read20 := .ok (updateListsDirective ++ unattendedDirective) }

/-- C1 witness at a concrete environment. -/
theorem check_never_raises_witness :
    (check_unattended_upgrades envGood).2 ≠ "" ∧
      check_unattended_upgrades envGood = (true, msgEnabled) :=
  ⟨(check_never_raises_and_false_on_failure envGood).1,
    (check_never_raises_and_false_on_failure envGood).2 (by decide)⟩

/-- C2: if the package query reports the package installed (return code 0),
the 50unattended-upgrades file exists and its text contains the
Allowed-Origins key, and the 20auto-upgrades file exists and its text contains
both periodic directives, then the verdict is `enabled=true` with exactly the
success message. -/
theorem check_success_verdict (env : Env)
    (h1 : env.dpkg = .ok 0) (h2 : env.exists50 = true)
    (c : String) (h3 : env.read50 = .ok c)
    (h4 : strContains c originsKey = true)
    (h5 : env.exists20 = true)
    (d : String) (h6 : env.read20 = .ok d)
    (h7 : strContains d updateListsDirective = true)
    (h8 : strContains d unattendedDirective = true) :
    check_unattended_upgrades env = (true, msgEnabled) := by
  unfold check_unattended_upgrades checkBody
  simp [h1, h2, h3, h4, h5, h6, h7, h8]

/-- C2 witness at a concrete environment. -/
theorem check_success_verdict_witness :
    check_unattended_upgrades envGood = (true, msgEnabled) :=
  check_success_verdict envGood rfl rfl originsKey rfl (by decide) rfl
    (updateListsDirective ++ unattendedDirective) rfl (by decide) (by decide)

/-- Environment in which the dpkg invocation itself raises
`FileNotFoundError` (missing dpkg binary). -/
def envQueryRaises : Env :=
  { dpkg := .error (.fileNotFound "No such file or directory: dpkg"),
    exists50 := false, read50 := .ok "", exists20 := false, read20 := .ok "" }

/-- C4 counterexample: when the query mechanism itself fails to run (missing
dpkg binary raising `FileNotFoundError`), the verdict is `enabled=false` but
its message is the handler text, not "Unattended upgrades package is not
installed." as the claim states. -/
theorem check_query_raise_message_cex :
    (check_unattended_upgrades envQueryRaises).1 = false ∧
      (check_unattended_upgrades envQueryRaises).2 ≠ msgNotInstalled := by
  decide

/-- C4 amended: a query that runs and reports the package absent (non-zero
return code) yields exactly the not-installed message; a query invocation that
raises yields `enabled=false` with the corresponding exception-handler
message instead. -/
theorem check_package_query_outcomes (env : Env) :
    (∀ rc : Int, env.dpkg = .ok rc → rc ≠ 0 →
      check_unattended_upgrades env = (false, msgNotInstalled)) ∧
    (∀ e : PyErr, env.dpkg = .error e →
      check_unattended_upgrades env = handleErr e ∧
        (check_unattended_upgrades env).1 = false) := by
  constructor
  · intro rc h hne
    unfold check_unattended_upgrades checkBody
    simp [h, bne_iff_ne, hne]
  · intro e h
    unfold check_unattended_upgrades checkBody
    rw [h]
    exact ⟨rfl, (handleErr_spec e).1⟩

/-- Environment whose package query runs and reports the package absent. -/
def envNotInstalled : Env :=
  { dpkg := .ok 1, exists50 := true, read50 := .ok "", exists20 := true,
    read20 := .ok "" }

/-- C4 amended witness at concrete environments for both branches. -/
theorem check_package_query_outcomes_witness :
    check_unattended_upgrades envNotInstalled = (false, msgNotInstalled) ∧
      check_unattended_upgrades envQueryRaises =
        handleErr (.fileNotFound "No such file or directory: dpkg") :=
  ⟨(check_package_query_outcomes envNotInstalled).1 1 rfl (by decide),
    ((check_package_query_outcomes envQueryRaises).2
      (.fileNotFound "No such file or directory: dpkg") rfl).1⟩

/-- C5: with the package installed (return code 0) and
`/etc/apt/apt.conf.d/50unattended-upgrades` absent, the verdict is
`enabled=false` with exactly the message naming that path. -/
theorem check_missing_50_message (env : Env)
    (h1 : env.dpkg = .ok 0) (h2 : env.exists50 = false) :
    check_unattended_upgrades env = (false, msgMissing50) := by
  unfold check_unattended_upgrades checkBody
  simp [h1, h2]

/-- Environment with the package installed but the policy file missing; the
remaining fields are deliberately hostile to later steps. -/
def envMissing50 : Env :=
  { dpkg := .ok 0, exists50 := false, read50 := .error (.other "boom"),
    exists20 := false, read20 := .error (.other "boom") }

/-- C5 witness at a concrete environment. -/
theorem check_missing_50_message_witness :
    check_unattended_upgrades envMissing50 = (false, msgMissing50) :=
  check_missing_50_message envMissing50 rfl rfl

/-! ## C3: short-circuiting -/

/-- Step 1 (lines 33-35) fails: the query raises or reports a non-zero code. -/
def step1Fails (env : Env) : Bool :=
  match env.dpkg with
  | .error _ => true
  | .ok rc => rc != 0

/-- Step 2 (lines 38-40) fails: the policy file is absent. -/
def step2Fails (env : Env) : Bool := !env.exists50

/-- Step 3 (lines 42-46) fails: the policy file read raises or its text lacks
the Allowed-Origins key. -/
def step3Fails (env : Env) : Bool :=
  match env.read50 with
  | .error _ => true
  | .ok c => !strContains c originsKey

/-- Step 4 (lines 49-51) fails: the periodic file is absent. -/
def step4Fails (env : Env) : Bool := !env.exists20

/-- Step 5 (lines 53-57) fails: the periodic file read raises or its text
lacks one of the two directives. -/
def step5Fails (env : Env) : Bool :=
  match env.read20 with
  | .error _ => true
  | .ok c => !(strContains c updateListsDirective &&
               strContains c unattendedDirective)

/-- Index of the first failing detection step, `none` when all five pass. -/
def firstFail (env : Env) : Option Nat :=
  if step1Fails env then some 1
  else if step2Fails env then some 2
  else if step3Fails env then some 3
  else if step4Fails env then some 4
  else if step5Fails env then some 5
  else none

/-- The verdict step `k` produces from its own inputs alone when it fails. -/
def failVerdict (k : Nat) (env : Env) : Bool × String :=
  match k with
  | 1 => match env.dpkg with
         | .error e => handleErr e
         | .ok _ => (false, msgNotInstalled)
  | 2 => (false, msgMissing50)
  | 3 => match env.read50 with
         | .error e => handleErr e
         | .ok _ => (false, msgOrigins)
  | 4 => (false, msgMissing20)
  | 5 => match env.read20 with
         | .error e => handleErr e
         | .ok _ => (false, msgPeriodic)
  | _ => (true, msgEnabled)

/-- Agreement of two environments on the inputs consumed by steps `1..k`. -/
def agreeUpTo (k : Nat) (e f : Env) : Prop :=
  (1 ≤ k → e.dpkg = f.dpkg) ∧ (2 ≤ k → e.exists50 = f.exists50) ∧
  (3 ≤ k → e.read50 = f.read50) ∧ (4 ≤ k → e.exists20 = f.exists20) ∧
  (5 ≤ k → e.read20 = f.read20)

/-- A passing step 1 means the query ran and returned code 0. -/
theorem step1_pass {env : Env} (h : step1Fails env = false) :
    env.dpkg = .ok 0 := by
  unfold step1Fails at h
  rcases hd : env.dpkg with er | rc
  · rw [hd] at h; simp at h
  · rw [hd] at h
    have : rc = 0 := by simpa using h
    rw [this]

/-- A passing step 3 means the read succeeded and the key is present. -/
theorem step3_pass {env : Env} (h : step3Fails env = false) :
    ∃ c, env.read50 = .ok c ∧ strContains c originsKey = true := by
  unfold step3Fails at h
  rcases hr : env.read50 with er | c
  · rw [hr] at h; simp at h
  · rw [hr] at h
    simp only [Bool.not_eq_false'] at h
    exact ⟨c, rfl, by simpa using h⟩

/-- C3: the detection algorithm short-circuits — when step `k` is the first
failing step, the verdict is exactly the verdict step `k` computes from its
own inputs, and any environment agreeing on the inputs of steps `1..k`
receives the same verdict, whatever its later inputs are. -/
theorem check_short_circuit (e f : Env) (k : Nat)
    (hk : firstFail e = some k) (hag : agreeUpTo k e f) :
    check_unattended_upgrades e = failVerdict k e ∧
      check_unattended_upgrades e = check_unattended_upgrades f := by
  obtain ⟨a1, a2, a3, a4, a5⟩ := hag
  unfold firstFail at hk
  cases hs1 : step1Fails e with
  | true =>
    rw [hs1] at hk
    simp only [if_true, Option.some.injEq] at hk
    subst hk
    have hd1 : e.dpkg = f.dpkg := a1 (by omega)
    unfold step1Fails at hs1
    rcases hd : e.dpkg with er | rc
    · rw [hd] at hs1 hd1
      constructor
      · simp [check_unattended_upgrades, checkBody, failVerdict, hd]
      · simp [check_unattended_upgrades, checkBody, hd, hd1.symm]
    · rw [hd] at hs1 hd1
      have hrcne : ¬rc = 0 := by simpa using hs1
      constructor
      · simp [check_unattended_upgrades, checkBody, failVerdict, hd, hrcne]
      · simp [check_unattended_upgrades, checkBody, hd, hd1.symm, hrcne]
  | false =>
    rw [hs1] at hk
    have hd : e.dpkg = Except.ok 0 := step1_pass hs1
    cases hs2 : step2Fails e with
    | true =>
      rw [hs2] at hk
      simp only [Bool.false_eq_true, if_false, if_true, Option.some.injEq]
        at hk
      subst hk
      have hd1 : f.dpkg = Except.ok 0 := (a1 (by omega)).symm.trans hd
      have hex : e.exists50 = false := by
        simpa [step2Fails] using hs2
      have hexf : f.exists50 = false := (a2 (by omega)).symm.trans hex
      constructor
      · simp [check_unattended_upgrades, checkBody, failVerdict, hd, hex]
      · simp [check_unattended_upgrades, checkBody, hd, hex, hd1, hexf]
    | false =>
      have hex : e.exists50 = true := by
        simpa [step2Fails] using hs2
      cases hs3 : step3Fails e with
      | true =>
        rw [hs2, hs3] at hk
        simp only [Bool.false_eq_true, if_false, if_true, Option.some.injEq]
          at hk
        subst hk
        have hd1 : f.dpkg = Except.ok 0 := (a1 (by omega)).symm.trans hd
        have hexf : f.exists50 = true := (a2 (by omega)).symm.trans hex
        have hr1 : e.read50 = f.read50 := a3 (by omega)
        unfold step3Fails at hs3
        rcases hr : e.read50 with er | c
        · rw [hr] at hs3 hr1
          constructor
          · simp [check_unattended_upgrades, checkBody, failVerdict, hd,
              hex, hr]
          · simp [check_unattended_upgrades, checkBody, hd, hex, hr,
              hd1, hexf, hr1.symm]
        · rw [hr] at hs3 hr1
          have hc : strContains c originsKey = false := by simpa using hs3
          constructor
          · simp [check_unattended_upgrades, checkBody, failVerdict, hd,
              hex, hr, hc]
          · simp [check_unattended_upgrades, checkBody, hd, hex, hr, hc,
              hd1, hexf, hr1.symm]
      | false =>
        obtain ⟨c, hr, hc⟩ := step3_pass hs3
        cases hs4 : step4Fails e with
        | true =>
          rw [hs2, hs3, hs4] at hk
          simp only [Bool.false_eq_true, if_false, if_true,
            Option.some.injEq] at hk
          subst hk
          have hd1 : f.dpkg = Except.ok 0 := (a1 (by omega)).symm.trans hd
          have hexf : f.exists50 = true := (a2 (by omega)).symm.trans hex
          have hr1 : f.read50 = .ok c := (a3 (by omega)).symm.trans hr
          have hex2 : e.exists20 = false := by
            simpa [step4Fails] using hs4
          have hex2f : f.exists20 = false := (a4 (by omega)).symm.trans hex2
          constructor
          · simp [check_unattended_upgrades, checkBody, failVerdict, hd,
              hex, hr, hc, hex2]
          · simp [check_unattended_upgrades, checkBody, hd, hex, hr, hc,
              hex2, hd1, hexf, hr1, hex2f]
        | false =>
          have hex2 : e.exists20 = true := by
            simpa [step4Fails] using hs4
          cases hs5 : step5Fails e with
          | true =>
            rw [hs2, hs3, hs4, hs5] at hk
            simp only [Bool.false_eq_true, if_false, if_true,
              Option.some.injEq] at hk
            subst hk
            have hd1 : f.dpkg = Except.ok 0 := (a1 (by omega)).symm.trans hd
            have hexf : f.exists50 = true := (a2 (by omega)).symm.trans hex
            have hr1 : f.read50 = .ok c := (a3 (by omega)).symm.trans hr
            have hex2f : f.exists20 = true := (a4 (by omega)).symm.trans hex2
            have hr2 : e.read20 = f.read20 := a5 (by omega)
            unfold step5Fails at hs5
            rcases hq : e.read20 with er | q
            · rw [hq] at hs5 hr2
              constructor
              · simp [check_unattended_upgrades, checkBody, failVerdict, hd,
                  hex, hr, hc, hex2, hq]
              · simp [check_unattended_upgrades, checkBody, hd, hex, hr,
                  hc, hex2, hq, hd1, hexf, hr1, hex2f, hr2.symm]
            · rw [hq] at hs5 hr2
              have hq2 : strContains q updateListsDirective = false ∨
                  strContains q unattendedDirective = false := by
                simpa using hs5
              rcases hq2 with hq2 | hq2 <;> refine ⟨?_, ?_⟩ <;>
                simp [check_unattended_upgrades, checkBody, failVerdict, hd,
                  hex, hr, hc, hex2, hq, hq2, hd1, hexf, hr1, hex2f, hr2.symm]
          | false =>
            rw [hs2, hs3, hs4, hs5] at hk
            simp at hk

/-- Environment failing at step 1 with benign later inputs. -/
def envShortA : Env :=
  { dpkg := .ok 2, exists50 := true, read50 := .ok "", exists20 := true,
    read20 := .ok "" }

/-- Environment agreeing with `envShortA` on the step-1 input only, with every
later input different and hostile. -/
def envShortB : Env :=
  { dpkg := .ok 2, exists50 := false, read50 := .error (.other "boom"),
    exists20 := false, read20 := .error (.other "boom") }

/-- C3 witness: two concrete environments agreeing only on the failing first
step receive the same verdict, the step-1 verdict. -/
theorem check_short_circuit_witness :
    check_unattended_upgrades envShortA = failVerdict 1 envShortA ∧
      check_unattended_upgrades envShortA =
        check_unattended_upgrades envShortB :=
  check_short_circuit envShortA envShortB 1 (by decide)
    ⟨fun _ => rfl, fun h => absurd h (by decide), fun h => absurd h (by decide),
      fun h => absurd h (by decide), fun h => absurd h (by decide)⟩

/-! ## Claims about `audit_config_file` -/

/-- Two matching suffixes of one string agree on their last character. -/
theorem prefixOf_head_eq {a b : Char} {as bs s : List Char}
    (ha : prefixOf (a :: as) s = true) (hb : prefixOf (b :: bs) s = true) :
    a = b := by
  cases s with
  | nil => simp [prefixOf] at ha
  | cons c cs =>
    simp [prefixOf] at ha hb
    exact ha.1.trans hb.1.symm

/-- A path ending in `.json` ends in neither `.yaml` nor `.yml`. -/
theorem endsWith_json_excl (p : String) (h : strEndsWith p ".json" = true) :
    strEndsWith p ".yaml" = false ∧ strEndsWith p ".yml" = false := by
  constructor
  · cases hy : strEndsWith p ".yaml"
    · rfl
    · exfalso
      unfold strEndsWith at h hy
      rw [show (".json".data.reverse) = 'n' :: ['o', 's', 'j', '.'] from rfl]
        at h
      rw [show (".yaml".data.reverse) = 'l' :: ['m', 'a', 'y', '.'] from rfl]
        at hy
      exact absurd (prefixOf_head_eq h hy) (by decide)
  · cases hy : strEndsWith p ".yml"
    · rfl
    · exfalso
      unfold strEndsWith at h hy
      rw [show (".json".data.reverse) = 'n' :: ['o', 's', 'j', '.'] from rfl]
        at h
      rw [show (".yml".data.reverse) = 'l' :: ['m', 'y', '.'] from rfl] at hy
      exact absurd (prefixOf_head_eq h hy) (by decide)

/-- Every `except` clause of `audit_config_file` returns `False`. -/
theorem auditHandle_fst (e : AuditErr) : (auditHandle e).1 = false := by
  cases e <;> rfl

/-- Exhaustive list of the outcomes of the `try` body of the audit. -/
theorem auditBody_cases (w : AuditWorld) (cfg sch : String) :
    auditBody w cfg sch = .ok (false, [msgUnsupported]) ∨
    auditBody w cfg sch = .ok (true, [msgValidLog cfg]) ∨
    ∃ e, auditBody w cfg sch = .error e := by
  unfold auditBody validateStage
  repeat' split
  all_goals tauto

/-- C6: for every pair of paths and every world — missing or unreadable
files, malformed YAML, malformed JSON, schema violations, any unexpected
error — `audit_config_file` returns `False`, and `True` arises only from the
unique fully successful run.  Totality of the Lean function over the whole
world type is the never-raises / never-terminates half of the claim. -/
theorem audit_never_raises_false_on_error (w : AuditWorld) (cfg sch : String) :
    (∀ e, auditBody w cfg sch = .error e →
      (audit_config_file w cfg sch).1 = false) ∧
    ((audit_config_file w cfg sch).1 = true →
      auditBody w cfg sch = .ok (true, [msgValidLog cfg])) := by
  constructor
  · intro e h
    rw [audit_config_file, h]
    exact auditHandle_fst e
  · intro ht
    rcases auditBody_cases w cfg sch with h | h | ⟨e, h⟩
    · rw [audit_config_file, h] at ht
      cases ht
    · exact h
    · rw [audit_config_file, h] at ht
      rw [show fromBody (.error e) = auditHandle e from rfl,
        auditHandle_fst e] at ht
      cases ht

/-- A world in which everything succeeds. -/
def worldAny : AuditWorld :=
  { readFile := fun _ => .ok "x", parseYaml := fun _ => .ok .null,
    parseJson := fun _ => .ok .null, validateFn := fun _ _ => .ok () }

/-- A world in which every file read raises `FileNotFoundError`. -/
def worldErr : AuditWorld :=
  { readFile := fun _ => .error (.fileNotFound "missing"),
    parseYaml := fun _ => .ok .null, parseJson := fun _ => .ok .null,
    validateFn := fun _ _ => .ok () }

/-- C6 witness at concrete worlds for both halves. -/
theorem audit_never_raises_witness :
    (audit_config_file worldErr "cfg.json" "schema.json").1 = false ∧
      auditBody worldAny "cfg.json" "schema.json" =
        .ok (true, [msgValidLog "cfg.json"]) :=
  ⟨(audit_never_raises_false_on_error worldErr "cfg.json" "schema.json").1
      (.fileNotFound "missing") (by decide),
    (audit_never_raises_false_on_error worldAny "cfg.json" "schema.json").2
      (by decide)⟩

/-- C7: a configuration path ending in none of `.yaml`, `.yml`, `.json` gets
the unsupported-type verdict `False`, whatever the world holds — file
contents, schema contents and existence are never consulted. -/
theorem audit_unsupported_extension (w : AuditWorld) (cfg sch : String)
    (h1 : strEndsWith cfg ".yaml" = false)
    (h2 : strEndsWith cfg ".yml" = false)
    (h3 : strEndsWith cfg ".json" = false) :
    audit_config_file w cfg sch = (false, [msgUnsupported]) := by
  unfold audit_config_file auditBody
  simp [h1, h2, h3, fromBody]

/-- C7 witness: `cfg.txt` in a world where everything would succeed. -/
theorem audit_unsupported_extension_witness :
    audit_config_file worldAny "cfg.txt" "schema.json" =
      (false, [msgUnsupported]) :=
  audit_unsupported_extension worldAny "cfg.txt" "schema.json"
    (by decide) (by decide) (by decide)

/-- ASCII lower-casing of a path, to state case-insensitive suffix match. -/
def lowerStr (s : String) : String := String.mk (s.data.map Char.toLower)

/-- C10: extension dispatch is case-sensitive — a path whose lower-cased form
ends in `.yaml`, `.yml` or `.json` but which does not end in any of them
exactly is treated as unsupported and audited `False` regardless of any
content. -/
theorem audit_extension_case_sensitive (w : AuditWorld) (cfg sch : String)
    (hcase : (strEndsWith (lowerStr cfg) ".yaml" ||
        strEndsWith (lowerStr cfg) ".yml" ||
        strEndsWith (lowerStr cfg) ".json") = true)
    (h1 : strEndsWith cfg ".yaml" = false)
    (h2 : strEndsWith cfg ".yml" = false)
    (h3 : strEndsWith cfg ".json" = false) :
    audit_config_file w cfg sch = (false, [msgUnsupported]) := by
  unfold audit_config_file auditBody
  simp [h1, h2, h3, fromBody]

/-- C10 witness: `cfg.YAML` in a world where everything would succeed. -/
theorem audit_extension_case_sensitive_witness :
    audit_config_file worldAny "cfg.YAML" "schema.json" =
      (false, [msgUnsupported]) :=
  audit_extension_case_sensitive worldAny "cfg.YAML" "schema.json"
    (by decide) (by decide) (by decide) (by decide)

/-- The schema/validate stage's boolean does not depend on the configuration
path, which only enters the success log text. -/
theorem validateStage_fst (w : AuditWorld) (c1 c2 sch : String) (d : JValue) :
    (fromBody (validateStage w c1 sch d)).1 =
      (fromBody (validateStage w c2 sch d)).1 := by
  unfold validateStage
  cases hs : w.readFile sch with
  | error e => rfl
  | ok ss =>
    cases hp : w.parseJson ss with
    | error e => simp [hp, fromBody]
    | ok sd =>
      cases hv : w.validateFn d sd with
      | error e => simp [hp, hv, fromBody]
      | ok u => simp [hp, hv, fromBody]

/-- C9: a `.yml` path whose YAML content parses to document `d` and a `.json`
path whose JSON content parses to the same document `d` receive identical
verdicts against the same schema path in the same world. -/
theorem audit_yaml_json_agree (w : AuditWorld) (sch py pj cy cj : String)
    (d : JValue)
    (hy : strEndsWith py ".yml" = true)
    (hj : strEndsWith pj ".json" = true)
    (hry : w.readFile py = .ok cy) (hpy : w.parseYaml cy = .ok d)
    (hrj : w.readFile pj = .ok cj) (hpj : w.parseJson cj = .ok d) :
    (audit_config_file w py sch).1 = (audit_config_file w pj sch).1 := by
  obtain ⟨hj1, hj2⟩ := endsWith_json_excl pj hj
  unfold audit_config_file auditBody
  simp [hy, hj, hj1, hj2, hry, hpy, hrj, hpj]
  exact validateStage_fst w py pj sch d

/-- The shared document of the C9 witness. -/
def docPort : JValue := .obj [("port", .num 8080)]

/-- A world holding a YAML file and a JSON file that parse to the same
document; every other read fails. -/
def worldYJ : AuditWorld :=
  { readFile := fun p =>
      if p == "cfg.yml" then .ok "yamltext"
      else if p == "cfg.json" then .ok "jsontext"
      else .error (.fileNotFound p),
    parseYaml := fun s =>
      if s == "yamltext" then .ok docPort else .error (.yamlError s),
    parseJson := fun s =>
      if s == "jsontext" then .ok docPort else .error (.jsonDecodeError s),
    validateFn := fun _ _ => .ok () }

/-- C9 witness at a concrete world and file pair. -/
theorem audit_yaml_json_agree_witness :
    (audit_config_file worldYJ "cfg.yml" "schema.json").1 =
      (audit_config_file worldYJ "cfg.json" "schema.json").1 :=
  audit_yaml_json_agree worldYJ "schema.json" "cfg.yml" "cfg.json"
    "yamltext" "jsontext" docPort (by decide) (by decide)
    rfl rfl rfl rfl

/-! ## C8: missing required property -/

/-- Every member of a list occurs contiguously inside the joined message. -/
theorem joinMsgs_mem {l : List String} {m : String} (h : m ∈ l) :
    ∃ a b, (joinMsgs l).data = a ++ (m.data ++ b) := by
  induction l with
  | nil => cases h
  | cons x rest ih =>
    cases rest with
    | nil =>
      rcases List.mem_singleton.mp h with rfl
      exact ⟨[], [], by simp [joinMsgs]⟩
    | cons y t =>
      rcases List.mem_cons.mp h with rfl | hm
      · refine ⟨[], ("; " ++ joinMsgs (y :: t)).data, ?_⟩
        simp [joinMsgs, String.data_append, List.append_assoc]
      · obtain ⟨a, b, hab⟩ := ih hm
        refine ⟨(x ++ "; ").data ++ a, b, ?_⟩
        simp [joinMsgs, String.data_append, hab, List.append_assoc]

/-- A property in the required-violation message is contained in the message,
behind any diagnostic prefix. -/
theorem strContains_joinMsgs_reqClause {l : List String} {p : String}
    (h : p ∈ l) (pre : String) :
    strContains (pre ++ joinMsgs (l.map reqClause)) p = true := by
  obtain ⟨a, b, hab⟩ := joinMsgs_mem (List.mem_map_of_mem reqClause h)
  unfold strContains
  rw [String.data_append, hab,
    show (reqClause p).data = "required property missing: ".data ++ p.data by
      simp [reqClause, String.data_append]]
  have hs := containsSub_sandwich
    (pre.data ++ (a ++ "required property missing: ".data)) p.data b
  simpa [List.append_assoc] using hs

/-- Modelled from the spec: validating an object instance against an object
schema with a required property absent from the instance reports a
violation whose message lists every missing required property. -/
theorem jsValidate_missing_required {kvs skvs : List (String × JValue)}
    {p : String}
    (hreq : p ∈ requiredList (.obj skvs))
    (hmiss : lookupJ kvs p = none) :
    ∃ l : List String, p ∈ l ∧
      jsValidate (.obj kvs) (.obj skvs) =
        .error (.validationError (joinMsgs (l.map reqClause))) := by
  refine ⟨(requiredList (.obj skvs)).filter
      (fun q => (lookupJ kvs q).isNone), ?_, ?_⟩
  · exact List.mem_filter.mpr ⟨hreq, by simp [hmiss]⟩
  · have hmem : p ∈ (requiredList (JValue.obj skvs)).filter
        (fun q => (lookupJ kvs q).isNone) :=
      List.mem_filter.mpr ⟨hreq, by simp [hmiss]⟩
    have hne : ((requiredList (JValue.obj skvs)).filter
        (fun q => (lookupJ kvs q).isNone)).isEmpty = false := by
      cases hfil : (requiredList (JValue.obj skvs)).filter
          (fun q => (lookupJ kvs q).isNone) with
      | nil => rw [hfil] at hmem; cases hmem
      | cons a t => rfl
    simp [jsValidate, jsValidateF, hne]

/-- C8: with the validator being the modelled `jsonschema.validate`, a
configuration mapping that lacks a property the schema's required list names
is audited `False`, and a logged diagnostic names that missing property. -/
theorem audit_missing_required_property (w : AuditWorld)
    (cfg sch cs ss : String) (kvs skvs : List (String × JValue)) (p : String)
    (hext : strEndsWith cfg ".json" = true)
    (hrc : w.readFile cfg = .ok cs)
    (hpc : w.parseJson cs = .ok (.obj kvs))
    (hrs : w.readFile sch = .ok ss)
    (hps : w.parseJson ss = .ok (.obj skvs))
    (hval : w.validateFn = jsValidate)
    (hreq : p ∈ requiredList (.obj skvs))
    (hmiss : lookupJ kvs p = none) :
    (audit_config_file w cfg sch).1 = false ∧
      ∃ d ∈ (audit_config_file w cfg sch).2, strContains d p = true := by
  obtain ⟨h1, h2⟩ := endsWith_json_excl cfg hext
  obtain ⟨l, hpl, hvEq⟩ := jsValidate_missing_required hreq hmiss
  have haudit : audit_config_file w cfg sch =
      auditHandle (.validationError (joinMsgs (l.map reqClause))) := by
    unfold audit_config_file auditBody validateStage
    simp [h1, h2, hext, hrc, hpc, hrs, hps, hval, hvEq, fromBody]
  rw [haudit]
  exact ⟨rfl, "Validation error: " ++ joinMsgs (l.map reqClause),
    List.mem_cons_self _ _,
    strContains_joinMsgs_reqClause hpl "Validation error: "⟩

/-- Schema of the C8 witness: requires a `port` property. -/
def schemaReq : JValue := .obj [("required", .arr [.str "port"])]

/-- A world holding a JSON configuration parsing to the empty mapping and a
schema file parsing to `schemaReq`, validated by the modelled validator. -/
def worldReq : AuditWorld :=
  { readFile := fun q =>
      if q == "cfg.json" then .ok "cfgtext" else .ok "schematext",
    parseYaml := fun s => .error (.yamlError s),
    parseJson := fun s =>
      if s == "cfgtext" then .ok (.obj []) else .ok schemaReq,
    validateFn := jsValidate }

/-- C8 witness at a concrete world, schema and missing property. -/
theorem audit_missing_required_property_witness :
    (audit_config_file worldReq "cfg.json" "schema.json").1 = false ∧
      ∃ d ∈ (audit_config_file worldReq "cfg.json" "schema.json").2,
        strContains d "port" = true :=
  audit_missing_required_property worldReq "cfg.json" "schema.json"
    "cfgtext" "schematext" [] [("required", .arr [.str "port"])] "port"
    (by decide) rfl rfl rfl rfl rfl (by decide) rfl

end Chaudit
